import Mathlib

/-!
A verification development for the Issue Register core: the policy
resolver (`src/services/permissions.py`), the status transition machine,
the mutation orchestrator (`src/services/issue_service.py`), the audit
trail writer (`src/services/audit.py`) and the persistence layer
(`src/database/queries.py`, `src/database/models.py`).

Modelling conventions:
- Python `str` statuses/roles are the five/four enum values, embedded as
  inductive types (the services only ever compare them for equality).
- `date` and `datetime` values are abstract `Nat` instants; `date.today()`
  and `datetime.now()` are passed explicitly as `today`/`now` arguments
  (the spec's injected Clock collaborator).
- The SQLite store and the audit table are a `DB` record; `queries.*`
  functions are pure state transformers over it.
- A Python update dict is a `List FieldSet` (insertion-ordered key/value
  pairs, each pair well typed for its key, as every caller constructs it).
-/

deriving instance DecidableEq for Except

namespace IssueRegister

/-- `Status` enum of `models.py` ("Draft", "Open", "In Progress",
"Remediated", "Closed"). -/
inductive Status
  | draft
  | open_
  | inProgress
  | remediated
  | closed
  deriving DecidableEq, Repr

/-- `UserRole` enum of `models.py`. -/
inductive Role
  | administrator
  | editor
  | restricted
  | viewer
  deriving DecidableEq, Repr

/-- `User` dataclass of `models.py` (the fields the policy layer reads;
`password_hash` and `created_at` are never consulted by the core). -/
structure User where
  username : String
  role : Role
  id : Option Nat := none
  departments : List String := []
  view_departments : List String := []
  edit_departments : List String := []
  deriving DecidableEq, Repr

/-- `Issue` dataclass of `models.py`. Dates and datetimes are `Nat`
instants (`none` = Python `None`). -/
structure Issue where
  title : String
  id : Option Nat := none
  status : Status := Status.draft
  summary_description : Option String := none
  topic : Option String := none
  identified_by : Option String := none
  owner : Option String := none
  department : Option String := none
  description : Option String := none
  remediation_action : Option String := none
  risk_description : Option String := none
  risk_level : String := "None"
  identification_date : Option Nat := none
  due_date : Option Nat := none
  follow_up_date : Option Nat := none
  updates : Option String := none
  closing_date : Option Nat := none
  supporting_docs : List String := []
  created_at : Option Nat := none
  updated_at : Option Nat := none
  deriving DecidableEq, Repr

/-- `User.can_access_department` (`models.py`): Administrators see all;
Editors use `view_departments` when non-empty; Restricted/Viewer use
`departments`; an empty scope list means "all departments" and a `None`
issue department is always accessible. -/
def User.can_access_department (u : User) (department : Option String) : Bool :=
  if u.role = Role.administrator then true
  else if u.role = Role.editor then
    if u.view_departments.isEmpty then true
    else
      match department with
      | none => true
      | some d => u.view_departments.contains d
  else
    if u.departments.isEmpty then true
    else
      match department with
      | none => true
      | some d => u.departments.contains d

/-- `User.can_edit_department` (`models.py`): Administrators edit all;
Viewers never; Editors use `edit_departments` when non-empty; Restricted
use `departments`; empty scope or `None` department means allowed. -/
def User.can_edit_department (u : User) (department : Option String) : Bool :=
  if u.role = Role.administrator then true
  else if u.role = Role.viewer then false
  else if u.role = Role.editor then
    if u.edit_departments.isEmpty then true
    else
      match department with
      | none => true
      | some d => u.edit_departments.contains d
  else
    if u.departments.isEmpty then true
    else
      match department with
      | none => true
      | some d => u.departments.contains d

/-- Keys of the `Issue.to_dict` serialisation / update payloads. -/
inductive FieldKey
  | id
  | title
  | status
  | summary_description
  | topic
  | identified_by
  | owner
  | department
  | description
  | remediation_action
  | risk_description
  | risk_level
  | identification_date
  | due_date
  | follow_up_date
  | updates
  | closing_date
  | supporting_docs
  | created_at
  | updated_at
  deriving DecidableEq, Repr

/-- `PermissionService.RESTRICTED_EDITABLE_FIELDS` (`permissions.py`). -/
def RESTRICTED_EDITABLE_FIELDS : List FieldKey :=
  [FieldKey.status, FieldKey.updates, FieldKey.supporting_docs, FieldKey.follow_up_date]

/-- The full field list returned by `get_editable_fields` for
Administrator/Editor (`permissions.py`). -/
def ALL_EDITABLE_FIELDS : List FieldKey :=
  [FieldKey.title, FieldKey.status, FieldKey.summary_description, FieldKey.topic,
   FieldKey.identified_by, FieldKey.owner, FieldKey.department, FieldKey.description,
   FieldKey.remediation_action, FieldKey.risk_description, FieldKey.risk_level,
   FieldKey.identification_date, FieldKey.due_date, FieldKey.follow_up_date,
   FieldKey.updates, FieldKey.closing_date, FieldKey.supporting_docs]

/-- `PermissionService.RESTRICTED_STATUS_TRANSITIONS` as a total function
(the Python dict lookup uses `.get(current_status, [])`). -/
def RESTRICTED_STATUS_TRANSITIONS : Status → List Status
  | Status.open_ => [Status.inProgress]
  | Status.inProgress => [Status.open_, Status.remediated]
  | Status.remediated => [Status.inProgress]
  | _ => []

/-- `PermissionService.ALL_STATUS_TRANSITIONS` as a total function
(the Python dict lookup uses `.get(current_status, [])`). -/
def ALL_STATUS_TRANSITIONS : Status → List Status
  | Status.draft => [Status.open_]
  | Status.open_ => [Status.inProgress, Status.closed]
  | Status.inProgress => [Status.open_, Status.remediated, Status.closed]
  | Status.remediated => [Status.inProgress, Status.closed]
  | Status.closed => []

/-- `PermissionService.can_create_issue`: everyone but Viewers. -/
def can_create_issue (u : User) : Bool :=
  u.role ≠ Role.viewer

/-- `PermissionService.can_view_issue`: delegates to department access. -/
def can_view_issue (u : User) (i : Issue) : Bool :=
  u.can_access_department i.department

/-- `PermissionService.can_edit_issue`: Viewers never; Administrators
always; Editors per `can_edit_department`; Restricted need department
access and a status outside {Closed, Draft}. -/
def can_edit_issue (u : User) (i : Issue) : Bool :=
  if u.role = Role.viewer then false
  else if u.role = Role.administrator then true
  else if u.role = Role.editor then u.can_edit_department i.department
  else
    if ¬ u.can_access_department i.department then false
    else if i.status = Status.closed ∨ i.status = Status.draft then false
    else true

/-- `PermissionService.can_delete_issue`: Administrators only. -/
def can_delete_issue (u : User) : Bool :=
  u.role = Role.administrator

/-- `PermissionService.get_editable_fields`. -/
def get_editable_fields (u : User) (i : Issue) : List FieldKey :=
  if ¬ can_edit_issue u i then []
  else if u.role = Role.administrator ∨ u.role = Role.editor then ALL_EDITABLE_FIELDS
  else RESTRICTED_EDITABLE_FIELDS

/-- `PermissionService.can_change_status`. -/
def can_change_status (u : User) (current_status new_status : Status) : Bool :=
  if current_status = new_status then true
  else if u.role = Role.viewer then false
  else if ¬ (ALL_STATUS_TRANSITIONS current_status).contains new_status then false
  else if u.role = Role.restricted then
    (RESTRICTED_STATUS_TRANSITIONS current_status).contains new_status
  else true

/-- `PermissionService.filter_issues_by_permission`. -/
def filter_issues_by_permission (u : User) (issues : List Issue) : List Issue :=
  issues.filter (fun i => can_view_issue u i)

/-- `PermissionService.get_default_status_for_role`. -/
def get_default_status_for_role (u : User) : Status :=
  if u.role = Role.restricted then Status.draft else Status.open_

/-- One key/value pair of a Python update dict (`updates: dict` argument
of `IssueService.update_issue`), carrying the value at the type the
`Issue` attribute has (every caller constructs the dict well typed). -/
inductive FieldSet
  | id (v : Option Nat)
  | title (v : String)
  | status (v : Status)
  | summary_description (v : Option String)
  | topic (v : Option String)
  | identified_by (v : Option String)
  | owner (v : Option String)
  | department (v : Option String)
  | description (v : Option String)
  | remediation_action (v : Option String)
  | risk_description (v : Option String)
  | risk_level (v : String)
  | identification_date (v : Option Nat)
  | due_date (v : Option Nat)
  | follow_up_date (v : Option Nat)
  | updates (v : Option String)
  | closing_date (v : Option Nat)
  | supporting_docs (v : List String)
  | created_at (v : Option Nat)
  | updated_at (v : Option Nat)
  deriving DecidableEq, Repr

/-- The dict key of a payload entry. -/
def FieldSet.key : FieldSet → FieldKey
  | FieldSet.id _ => FieldKey.id
  | FieldSet.title _ => FieldKey.title
  | FieldSet.status _ => FieldKey.status
  | FieldSet.summary_description _ => FieldKey.summary_description
  | FieldSet.topic _ => FieldKey.topic
  | FieldSet.identified_by _ => FieldKey.identified_by
  | FieldSet.owner _ => FieldKey.owner
  | FieldSet.department _ => FieldKey.department
  | FieldSet.description _ => FieldKey.description
  | FieldSet.remediation_action _ => FieldKey.remediation_action
  | FieldSet.risk_description _ => FieldKey.risk_description
  | FieldSet.risk_level _ => FieldKey.risk_level
  | FieldSet.identification_date _ => FieldKey.identification_date
  | FieldSet.due_date _ => FieldKey.due_date
  | FieldSet.follow_up_date _ => FieldKey.follow_up_date
  | FieldSet.updates _ => FieldKey.updates
  | FieldSet.closing_date _ => FieldKey.closing_date
  | FieldSet.supporting_docs _ => FieldKey.supporting_docs
  | FieldSet.created_at _ => FieldKey.created_at
  | FieldSet.updated_at _ => FieldKey.updated_at

/-- Python `setattr(issue, field, value)` for one payload entry. -/
def Issue.setField (i : Issue) : FieldSet → Issue
  | FieldSet.id v => { i with id := v }
  | FieldSet.title v => { i with title := v }
  | FieldSet.status v => { i with status := v }
  | FieldSet.summary_description v => { i with summary_description := v }
  | FieldSet.topic v => { i with topic := v }
  | FieldSet.identified_by v => { i with identified_by := v }
  | FieldSet.owner v => { i with owner := v }
  | FieldSet.department v => { i with department := v }
  | FieldSet.description v => { i with description := v }
  | FieldSet.remediation_action v => { i with remediation_action := v }
  | FieldSet.risk_description v => { i with risk_description := v }
  | FieldSet.risk_level v => { i with risk_level := v }
  | FieldSet.identification_date v => { i with identification_date := v }
  | FieldSet.due_date v => { i with due_date := v }
  | FieldSet.follow_up_date v => { i with follow_up_date := v }
  | FieldSet.updates v => { i with updates := v }
  | FieldSet.closing_date v => { i with closing_date := v }
  | FieldSet.supporting_docs v => { i with supporting_docs := v }
  | FieldSet.created_at v => { i with created_at := v }
  | FieldSet.updated_at v => { i with updated_at := v }

/-- The immutable keys `update_issue` silently skips. -/
def IMMUTABLE_KEYS : List FieldKey :=
  [FieldKey.id, FieldKey.created_at, FieldKey.updated_at]

/-- The `for field, value in updates.items()` loop of
`IssueService.update_issue`: apply an editable field, skip an immutable
key, abort on the first other key (returned as the offending field). -/
def applyUpdates (editable : List FieldKey) : Issue → List FieldSet → Except FieldKey Issue
  | i, [] => Except.ok i
  | i, u :: rest =>
    if editable.contains u.key then applyUpdates editable (i.setField u) rest
    else if IMMUTABLE_KEYS.contains u.key then applyUpdates editable i rest
    else Except.error u.key

/-- Python `updates["status"]` when `"status" in updates` (first binding;
dict keys are unique so it is the binding). -/
def payloadStatus : List FieldSet → Option Status
  | [] => none
  | FieldSet.status v :: _ => some v
  | _ :: rest => payloadStatus rest

/-- A serialised `Issue.to_dict` value. Date/datetime `isoformat` and
`json.dumps` of a string list are injective, so equality of serialised
values coincides with equality of the embedded values. -/
inductive DictVal
  | n (v : Option Nat)
  | s (v : String)
  | os (v : Option String)
  | stat (v : Status)
  | docs (v : List String)
  deriving DecidableEq, Repr

/-- One entry of `Issue.to_dict` (`models.py`). -/
def Issue.dictGet (i : Issue) : FieldKey → DictVal
  | FieldKey.id => DictVal.n i.id
  | FieldKey.title => DictVal.s i.title
  | FieldKey.status => DictVal.stat i.status
  | FieldKey.summary_description => DictVal.os i.summary_description
  | FieldKey.topic => DictVal.os i.topic
  | FieldKey.identified_by => DictVal.os i.identified_by
  | FieldKey.owner => DictVal.os i.owner
  | FieldKey.department => DictVal.os i.department
  | FieldKey.description => DictVal.os i.description
  | FieldKey.remediation_action => DictVal.os i.remediation_action
  | FieldKey.risk_description => DictVal.os i.risk_description
  | FieldKey.risk_level => DictVal.s i.risk_level
  | FieldKey.identification_date => DictVal.n i.identification_date
  | FieldKey.due_date => DictVal.n i.due_date
  | FieldKey.follow_up_date => DictVal.n i.follow_up_date
  | FieldKey.updates => DictVal.os i.updates
  | FieldKey.closing_date => DictVal.n i.closing_date
  | FieldKey.supporting_docs => DictVal.docs i.supporting_docs
  | FieldKey.created_at => DictVal.n i.created_at
  | FieldKey.updated_at => DictVal.n i.updated_at

/-- Key order of the `Issue.to_dict` literal (`models.py`). -/
def ALL_DICT_KEYS : List FieldKey :=
  [FieldKey.id, FieldKey.title, FieldKey.status, FieldKey.summary_description,
   FieldKey.topic, FieldKey.identified_by, FieldKey.owner, FieldKey.department,
   FieldKey.description, FieldKey.remediation_action, FieldKey.risk_description,
   FieldKey.risk_level, FieldKey.identification_date, FieldKey.due_date,
   FieldKey.follow_up_date, FieldKey.updates, FieldKey.closing_date,
   FieldKey.supporting_docs, FieldKey.created_at, FieldKey.updated_at]

/-- The `for key in after` diff of `AuditService.log_issue_updated`
(`audit.py`), computed on the `to_dict` forms of pre- and post-image. -/
def changedFields (before after : Issue) : List (FieldKey × DictVal × DictVal) :=
  ALL_DICT_KEYS.filterMap (fun k =>
    if before.dictGet k ≠ after.dictGet k
    then some (k, before.dictGet k, after.dictGet k)
    else none)

/-- `details` payload of an `AuditLogEntry` for issue actions. -/
inductive AuditDetails
  | created (title : String) (status : Status)
  | updated (changes : List (FieldKey × DictVal × DictVal))
  | statusChanged (before after : Status)
  | deleted (title : String)
  deriving DecidableEq, Repr

/-- `AuditLogEntry` dataclass of `models.py` (the fields written by the
issue paths; the row id and timestamp are assigned by the store). -/
structure AuditEntry where
  user_id : Option Nat
  username : String
  action : String
  entity_type : String
  entity_id : Option Nat
  details : Option AuditDetails
  deriving DecidableEq, Repr

/-- The persistent state: the `issues` table and the append-only
`audit_log` table. -/
structure DB where
  issues : List Issue
  audits : List AuditEntry
  deriving DecidableEq, Repr

/-- `queries.get_issue`: `SELECT * FROM issues WHERE id = ?`. -/
def Queries.get_issue (issue_id : Nat) (db : DB) : Option Issue :=
  db.issues.find? (fun i => i.id = some issue_id)

/-- `queries.update_issue`: writes every column of the row with the
issue's id and sets `updated_at = datetime.now()` (the `now` argument),
returning the issue with the fresh `updated_at`. -/
def Queries.update_issue (i : Issue) (now : Nat) (db : DB) : Issue × DB :=
  let updated := { i with updated_at := some now }
  (updated, { db with issues := db.issues.map (fun j => if j.id = i.id then updated else j) })

/-- `queries.create_audit_log`: appends a row to the audit table. -/
def Queries.create_audit_log (e : AuditEntry) (db : DB) : DB :=
  { db with audits := db.audits ++ [e] }

/-- `AuditService.log_issue_updated` (`audit.py`): diff the before/after
dicts; write nothing when no key changed, else one `updated` entry. -/
def AuditService.log_issue_updated (u : User) (issue_id : Nat)
    (before after : Issue) (db : DB) : DB :=
  let changes := changedFields before after
  if changes = [] then db
  else
    Queries.create_audit_log
      { user_id := u.id, username := u.username, action := "updated",
        entity_type := "issue", entity_id := some issue_id,
        details := some (AuditDetails.updated changes) } db

/-- `AuditService.log_issue_status_changed` (`audit.py`). -/
def AuditService.log_issue_status_changed (u : User) (issue_id : Nat)
    (old_status new_status : Status) (db : DB) : DB :=
  Queries.create_audit_log
    { user_id := u.id, username := u.username, action := "status_changed",
      entity_type := "issue", entity_id := some issue_id,
      details := some (AuditDetails.statusChanged old_status new_status) } db

/-- The error kinds of the issue service, one constructor per distinct
error message string returned by `issue_service.py`:
`notFound` = "Issue not found.",
`permissionDeniedEdit` = "You do not have permission to edit/update this issue.",
`permissionDeniedField f` = "You do not have permission to edit the '<f>' field.",
`permissionDeniedView` = "You do not have permission to view this issue.",
`invalidTransition s t` = "You cannot change status from '<s>' to '<t>'.". -/
inductive SvcError
  | notFound
  | permissionDeniedEdit
  | permissionDeniedField (f : FieldKey)
  | permissionDeniedView
  | invalidTransition (fromStatus toStatus : Status)
  deriving DecidableEq, Repr

/-- The spec's `PermissionDenied` error kind (section 7 taxonomy):
either an action-level or a field-level denial. -/
def SvcError.isPermissionDenied : SvcError → Bool
  | SvcError.permissionDeniedEdit => true
  | SvcError.permissionDeniedView => true
  | SvcError.permissionDeniedField _ => true
  | _ => false

/-- Persistence and audit tail of `IssueService.update_issue`: persist
the mutated issue, log the dict diff against the pre-image, and log a
`status_changed` entry when the payload's status differs from the
original status. -/
def IssueService.finishUpdate (user : User) (issue_id : Nat) (original : Issue)
    (original_status : Status) (updates : List FieldSet) (applied : Issue)
    (now : Nat) (db : DB) : Except SvcError Issue × DB :=
  let r := Queries.update_issue applied now db
  let db2 := AuditService.log_issue_updated user issue_id original r.1 r.2
  let db3 :=
    match payloadStatus updates with
    | some ns =>
      if ns ≠ original_status
      then AuditService.log_issue_status_changed user issue_id original_status ns db2
      else db2
    | none => db2
  (Except.ok r.1, db3)

/-- `IssueService.update_issue` (`issue_service.py`): load, check edit
permission, apply the payload field by field (abort on the first
non-editable, non-immutable key), validate a status change, auto-set
`closing_date` to `today` on a move to Closed with no closing date, then
persist and audit. -/
def IssueService.update_issue (user : User) (issue_id : Nat) (updates : List FieldSet)
    (now today : Nat) (db : DB) : Except SvcError Issue × DB :=
  match Queries.get_issue issue_id db with
  | none => (Except.error SvcError.notFound, db)
  | some original =>
    if ¬ can_edit_issue user original then (Except.error SvcError.permissionDeniedEdit, db)
    else
      let original_status := original.status
      let editable := get_editable_fields user original
      match applyUpdates editable original updates with
      | Except.error f => (Except.error (SvcError.permissionDeniedField f), db)
      | Except.ok applied =>
        match payloadStatus updates with
        | some new_status =>
          if ¬ can_change_status user original_status new_status then
            (Except.error (SvcError.invalidTransition original_status new_status), db)
          else
            let applied2 :=
              if new_status = Status.closed ∧ applied.closing_date = none
              then { applied with closing_date := some today }
              else applied
            IssueService.finishUpdate user issue_id original original_status updates applied2 now db
        | none =>
          IssueService.finishUpdate user issue_id original original_status updates applied now db

/-- `IssueService.get_issue` (`issue_service.py`): a missing row is
"Issue not found."; an existing row the actor may not view is
"You do not have permission to view this issue.". -/
def IssueService.get_issue (user : User) (issue_id : Nat) (db : DB) : Except SvcError Issue :=
  match Queries.get_issue issue_id db with
  | none => Except.error SvcError.notFound
  | some issue =>
    if ¬ can_view_issue user issue then Except.error SvcError.permissionDeniedView
    else Except.ok issue

/-- `IssueService.list_issues` with no filters: `queries.list_issues()`
returns every stored row, then `filter_issues_by_permission` drops the
rows the actor may not view. -/
def IssueService.list_issues (user : User) (db : DB) : List Issue :=
  filter_issues_by_permission user db.issues

/-- The `updates`-append of `IssueService.add_update_note`: Python
truthiness makes a `None` or empty existing text be replaced outright,
otherwise the entry is appended after a newline. -/
def appendNote (existing : Option String) (new_entry : String) : String :=
  match existing with
  | some u => if u = "" then new_entry else u ++ "\n" ++ new_entry
  | none => new_entry

/-- `IssueService.add_update_note` (`issue_service.py`): load, check
`can_edit_issue` only, append "[timestamp] username: note" to the
`updates` text, persist. No audit call on this path. -/
def IssueService.add_update_note (user : User) (issue_id : Nat) (note timestamp : String)
    (now : Nat) (db : DB) : Except SvcError Issue × DB :=
  match Queries.get_issue issue_id db with
  | none => (Except.error SvcError.notFound, db)
  | some issue =>
    if ¬ can_edit_issue user issue then (Except.error SvcError.permissionDeniedEdit, db)
    else
      let new_entry := "[" ++ timestamp ++ "] " ++ user.username ++ ": " ++ note
      let issue2 := { issue with updates := some (appendNote issue.updates new_entry) }
      let r := Queries.update_issue issue2 now db
      (Except.ok r.1, r.2)

/-! Sample actors and stores, used to instantiate the theorems below. -/

/-- A sample Administrator. -/
def adminU : User :=
  { username := "admin", role := Role.administrator, id := some 1 }

/-- A sample Editor whose `edit_departments` is exactly ["IT"]. -/
def editorITU : User :=
  { username := "ed", role := Role.editor, id := some 2, edit_departments := ["IT"] }

/-- A sample Restricted user whose `departments` is exactly ["IT"]. -/
def restrictedITU : User :=
  { username := "rika", role := Role.restricted, id := some 3, departments := ["IT"] }

/-- A sample Viewer. -/
def viewerU : User :=
  { username := "vera", role := Role.viewer, id := some 4 }

/-! Theorems settling the claims. -/

/-- C5: Closed is terminal: for every actor and target status `t`,
`can_change_status actor Closed t` is true exactly when `t = Closed`
(the self-transition); it is false for every other target. -/
theorem c5_closed_is_terminal (u : User) (t : Status) :
    can_change_status u Status.closed t = true ↔ t = Status.closed := by
  obtain ⟨un, r, uid, d1, d2, d3⟩ := u
  cases r <;> cases t <;>
    simp [can_change_status, ALL_STATUS_TRANSITIONS, RESTRICTED_STATUS_TRANSITIONS]

/-- C6: for every Restricted actor and every pair of distinct statuses,
`can_change_status` holds exactly on the four edges
Open→In Progress, In Progress→Open, In Progress→Remediated,
Remediated→In Progress; in particular never on Draft→Open nor on any
transition into Closed. -/
theorem c6_restricted_subgraph (u : User) (s t : Status)
    (hrole : u.role = Role.restricted) (hne : s ≠ t) :
    can_change_status u s t = true ↔
      ((s = Status.open_ ∧ t = Status.inProgress) ∨
       (s = Status.inProgress ∧ t = Status.open_) ∨
       (s = Status.inProgress ∧ t = Status.remediated) ∨
       (s = Status.remediated ∧ t = Status.inProgress)) := by
  obtain ⟨un, r, uid, d1, d2, d3⟩ := u
  simp only at hrole
  subst hrole
  cases s <;> cases t <;>
    simp_all [can_change_status, ALL_STATUS_TRANSITIONS, RESTRICTED_STATUS_TRANSITIONS]

/-- Witness for C6 at the concrete edge Open→In Progress for the sample
Restricted user. -/
theorem c6_restricted_subgraph_witness :
    can_change_status restrictedITU Status.open_ Status.inProgress = true ↔
      ((Status.open_ = Status.open_ ∧ Status.inProgress = Status.inProgress) ∨
       (Status.open_ = Status.inProgress ∧ Status.inProgress = Status.open_) ∨
       (Status.open_ = Status.inProgress ∧ Status.inProgress = Status.remediated) ∨
       (Status.open_ = Status.remediated ∧ Status.inProgress = Status.inProgress)) :=
  c6_restricted_subgraph restrictedITU Status.open_ Status.inProgress rfl (by decide)

/-- An Open issue in the IT department (fixture). -/
def issueOpenIT : Issue :=
  { title := "w8", id := some 1, status := Status.open_, department := some "IT" }

/-- An Open issue with no department (fixture). -/
def issueOpenNoDept : Issue :=
  { title := "w9", id := some 1, status := Status.open_ }

/-- C8: monotonic edit scope. For every issue whose status is neither
Draft nor Closed and every department list `d`: if a Restricted user
with `departments = d` can edit the issue then an Editor with
`edit_departments = d` can edit it; an Administrator can always edit it;
a Viewer can never edit it. -/
theorem c8_monotonic_edit_scope (i : Issue) (d : List String) (r e a v : User)
    (hs1 : i.status ≠ Status.draft) (hs2 : i.status ≠ Status.closed)
    (hr : r.role = Role.restricted) (hrd : r.departments = d)
    (he : e.role = Role.editor) (hed : e.edit_departments = d)
    (ha : a.role = Role.administrator) (hv : v.role = Role.viewer) :
    (can_edit_issue r i = true → can_edit_issue e i = true) ∧
      can_edit_issue a i = true ∧ can_edit_issue v i = false := by
  refine ⟨?_, by simp [can_edit_issue, ha], by simp [can_edit_issue, hv]⟩
  intro hredit
  subst hrd
  rcases hD : r.departments with _ | ⟨dh, dt⟩ <;>
    rcases hdep : i.department with _ | dep <;>
    simp_all [can_edit_issue, User.can_access_department, User.can_edit_department, hr, he]

/-- Witness for C8 with the sample actors, `d = ["IT"]` and an Open
issue in the IT department. -/
theorem c8_monotonic_edit_scope_witness :
    (can_edit_issue restrictedITU issueOpenIT = true →
      can_edit_issue editorITU issueOpenIT = true) ∧
      can_edit_issue adminU issueOpenIT = true ∧
      can_edit_issue viewerU issueOpenIT = false :=
  c8_monotonic_edit_scope issueOpenIT ["IT"] restrictedITU editorITU adminU viewerU
    (by decide) (by decide) rfl rfl rfl rfl rfl rfl

/-- C9: an issue with a `None` department is visible to every actor, and
on such an issue `can_edit_issue` is decided by role and the Restricted
status rule alone: it holds exactly when the actor is not a Viewer and
not a Restricted actor facing a Draft or Closed issue. -/
theorem c9_null_department_access (u : User) (i : Issue) (h : i.department = none) :
    can_view_issue u i = true ∧
      (can_edit_issue u i = true ↔
        (u.role ≠ Role.viewer ∧
          ¬ (u.role = Role.restricted ∧
              (i.status = Status.draft ∨ i.status = Status.closed)))) := by
  obtain ⟨un, r, uid, d1, d2, d3⟩ := u
  constructor
  · cases r <;> simp [can_view_issue, User.can_access_department, h]
  · cases r <;>
      simp [can_edit_issue, User.can_access_department, User.can_edit_department, h] <;>
      tauto

/-- Witness for C9: the sample Restricted user on an Open issue with no
department. -/
theorem c9_null_department_access_witness :
    can_view_issue restrictedITU issueOpenNoDept = true ∧
      (can_edit_issue restrictedITU issueOpenNoDept = true ↔
        (restrictedITU.role ≠ Role.viewer ∧
          ¬ (restrictedITU.role = Role.restricted ∧
              (issueOpenNoDept.status = Status.draft ∨
               issueOpenNoDept.status = Status.closed)))) :=
  c9_null_department_access restrictedITU issueOpenNoDept rfl

/-- A Draft issue in the IT department (fixture for C2). -/
def issueDraftIT : Issue :=
  { title := "A", id := some 1, status := Status.draft, department := some "IT" }

/-- A store holding only `issueDraftIT` (fixture for C2). -/
def dbDraftIT : DB :=
  { issues := [issueDraftIT], audits := [] }

/-- C2 counterexample: the sample Restricted user scoped to ["IT"],
updating the Draft IT issue with `status := Open`, is rejected with the
generic edit-permission error (a PermissionDenied), not with
`InvalidTransition Draft Open` as the claim states. -/
theorem c2_counterexample :
    (IssueService.update_issue restrictedITU 1 [FieldSet.status Status.open_]
        200 50 dbDraftIT).1 = Except.error SvcError.permissionDeniedEdit ∧
    (IssueService.update_issue restrictedITU 1 [FieldSet.status Status.open_]
        200 50 dbDraftIT).1 ≠
      Except.error (SvcError.invalidTransition Status.draft Status.open_) := by
  decide

/-- C2 amended: a Restricted actor scoped to ["IT"] calling
`update_issue` with `status: Draft → Open` on a Draft issue in
department "IT" is rejected with the PermissionDenied edit error —
`can_edit_issue` already fails because Restricted actors cannot edit
Draft issues — and the store is unchanged; the transition check is never
reached. -/
theorem c2_restricted_draft_update_denied (u : User) (issue_id : Nat) (db : DB)
    (issue : Issue) (now today : Nat)
    (hget : Queries.get_issue issue_id db = some issue)
    (hrole : u.role = Role.restricted) (hdept : u.departments = ["IT"])
    (hidept : issue.department = some "IT") (hstatus : issue.status = Status.draft) :
    IssueService.update_issue u issue_id [FieldSet.status Status.open_] now today db =
      (Except.error SvcError.permissionDeniedEdit, db) := by
  have hedit : can_edit_issue u issue = false := by
    simp [can_edit_issue, User.can_access_department, hrole, hdept, hidept, hstatus]
  unfold IssueService.update_issue
  rw [hget]
  simp [hedit]

/-- Witness for C2's amended theorem at the concrete fixture. -/
theorem c2_restricted_draft_update_denied_witness :
    IssueService.update_issue restrictedITU 1 [FieldSet.status Status.open_]
        200 50 dbDraftIT =
      (Except.error SvcError.permissionDeniedEdit, dbDraftIT) :=
  c2_restricted_draft_update_denied restrictedITU 1 dbDraftIT issueDraftIT 200 50
    (by decide) rfl rfl rfl rfl

/-- An Open issue in the HR department (fixture for C3). -/
def issueHR : Issue :=
  { title := "B", id := some 1, status := Status.open_, department := some "HR" }

/-- A store holding only `issueHR` (fixture for C3). -/
def dbHR : DB :=
  { issues := [issueHR], audits := [] }

/-- C3 counterexample: for the sample Restricted user scoped to ["IT"],
`get_issue` on the existing but unviewable HR issue returns the
view-permission error, which is NOT the NotFound error returned for a
nonexistent id — contradicting the claim that both reads surface the
same NotFound error. -/
theorem c3_counterexample :
    IssueService.get_issue restrictedITU 1 dbHR =
      Except.error SvcError.permissionDeniedView ∧
    IssueService.get_issue restrictedITU 99 dbHR = Except.error SvcError.notFound ∧
    SvcError.permissionDeniedView ≠ SvcError.notFound := by
  decide

/-- C3 amended: if the issue exists but `can_view_issue` is false,
`get_issue` returns the view PermissionDenied error (distinct from the
NotFound error used for a nonexistent id); `list_issues` returns exactly
the stored issues for which `can_view_issue` is true, silently dropping
the rest. -/
theorem c3_view_filtering (u : User) (db : DB) :
    (∀ issue_id issue, Queries.get_issue issue_id db = some issue →
        can_view_issue u issue = false →
        IssueService.get_issue u issue_id db =
          Except.error SvcError.permissionDeniedView) ∧
    (∀ issue_id, Queries.get_issue issue_id db = none →
        IssueService.get_issue u issue_id db = Except.error SvcError.notFound) ∧
    IssueService.list_issues u db = db.issues.filter (fun i => can_view_issue u i) := by
  refine ⟨?_, ?_, rfl⟩
  · intro issue_id issue hget hview
    unfold IssueService.get_issue
    rw [hget]
    simp [hview]
  · intro issue_id hget
    unfold IssueService.get_issue
    rw [hget]

/-- Witness for C3's amended theorem at the concrete fixtures. -/
theorem c3_view_filtering_witness :
    IssueService.get_issue restrictedITU 1 dbHR =
      Except.error SvcError.permissionDeniedView ∧
    IssueService.get_issue restrictedITU 99 dbHR = Except.error SvcError.notFound ∧
    IssueService.list_issues restrictedITU dbHR =
      dbHR.issues.filter (fun i => can_view_issue restrictedITU i) :=
  ⟨(c3_view_filtering restrictedITU dbHR).1 1 issueHR (by decide) (by decide),
   (c3_view_filtering restrictedITU dbHR).2.1 99 (by decide),
   (c3_view_filtering restrictedITU dbHR).2.2⟩

/-- If the update loop aborts with field `f`, then `f` occurs among the
payload keys and is neither editable nor immutable. -/
theorem applyUpdates_error_spec (editable : List FieldKey) (i : Issue)
    (us : List FieldSet) (f : FieldKey)
    (h : applyUpdates editable i us = Except.error f) :
    f ∈ us.map FieldSet.key ∧ f ∉ editable ∧ f ∉ IMMUTABLE_KEYS := by
  induction us generalizing i with
  | nil => simp [applyUpdates] at h
  | cons u rest ih =>
    simp only [applyUpdates] at h
    split at h
    · rcases ih _ h with ⟨h1, h2, h3⟩
      exact ⟨by simp [h1], h2, h3⟩
    · split at h
      · rcases ih _ h with ⟨h1, h2, h3⟩
        exact ⟨by simp [h1], h2, h3⟩
      · next hc1 hc2 =>
        injection h with h
        subst h
        refine ⟨by simp, fun hm => ?_, fun hm => ?_⟩
        · exact hc1 (by simpa using hm)
        · exact hc2 (by simpa using hm)

/-- If some payload key is neither editable nor immutable, the update
loop aborts. -/
theorem applyUpdates_error_of_disallowed (editable : List FieldKey) (i : Issue)
    (us : List FieldSet)
    (h : ∃ fs ∈ us, fs.key ∉ editable ∧ fs.key ∉ IMMUTABLE_KEYS) :
    ∃ f, applyUpdates editable i us = Except.error f := by
  induction us generalizing i with
  | nil => simp at h
  | cons u rest ih =>
    simp only [applyUpdates]
    split
    · next hc1 =>
      apply ih
      rcases h with ⟨fs, hmem, h2, h3⟩
      rcases List.mem_cons.mp hmem with rfl | hmem2
      · exact absurd (by simpa using hc1) h2
      · exact ⟨fs, hmem2, h2, h3⟩
    · split
      · next hc1 hc2 =>
        apply ih
        rcases h with ⟨fs, hmem, h2, h3⟩
        rcases List.mem_cons.mp hmem with rfl | hmem2
        · exact absurd (by simpa using hc2) h3
        · exact ⟨fs, hmem2, h2, h3⟩
      · exact ⟨u.key, rfl⟩

/-- C1 counterexample: a Viewer on the existing HR issue with payload
`{title: "X"}`. The key `title` is outside `editable_fields` (empty for a
Viewer) and not immutable, yet `update_issue` returns the generic
edit-permission error naming no field — not a `PermissionDenied(title)`
— because `can_edit_issue` already fails before the field loop runs. -/
theorem c1_counterexample :
    FieldKey.title ∉ get_editable_fields viewerU issueHR ∧
    FieldKey.title ∉ IMMUTABLE_KEYS ∧
    (IssueService.update_issue viewerU 1 [FieldSet.title "X"] 200 50 dbHR).1 =
      Except.error SvcError.permissionDeniedEdit ∧
    (IssueService.update_issue viewerU 1 [FieldSet.title "X"] 200 50 dbHR).1 ≠
      Except.error (SvcError.permissionDeniedField FieldKey.title) := by
  decide

/-- C1 amended: all-or-nothing update. If any payload key is outside
`editable_fields(actor, issue)` and not immutable, `update_issue` returns
a PermissionDenied error — naming an offending field whenever the actor
passes `can_edit_issue`, or the generic edit-permission error otherwise
— the persisted store is unchanged and no AuditEvent is written. -/
theorem c1_all_or_nothing (user : User) (issue_id : Nat) (updates : List FieldSet)
    (now today : Nat) (db : DB) (original : Issue)
    (hget : Queries.get_issue issue_id db = some original)
    (hbad : ∃ fs ∈ updates, fs.key ∉ get_editable_fields user original ∧
        fs.key ∉ IMMUTABLE_KEYS) :
    (IssueService.update_issue user issue_id updates now today db).2 = db ∧
    (∃ e, (IssueService.update_issue user issue_id updates now today db).1 =
        Except.error e ∧ e.isPermissionDenied = true) ∧
    (∀ f, (IssueService.update_issue user issue_id updates now today db).1 =
        Except.error (SvcError.permissionDeniedField f) →
      f ∈ updates.map FieldSet.key ∧ f ∉ get_editable_fields user original ∧
        f ∉ IMMUTABLE_KEYS) ∧
    (can_edit_issue user original = true →
      ∃ f, (IssueService.update_issue user issue_id updates now today db).1 =
        Except.error (SvcError.permissionDeniedField f)) ∧
    (can_edit_issue user original = false →
      (IssueService.update_issue user issue_id updates now today db).1 =
        Except.error SvcError.permissionDeniedEdit) := by
  by_cases hedit : can_edit_issue user original = true
  · obtain ⟨f, herr⟩ :=
      applyUpdates_error_of_disallowed (get_editable_fields user original) original
        updates hbad
    have hres : IssueService.update_issue user issue_id updates now today db =
        (Except.error (SvcError.permissionDeniedField f), db) := by
      unfold IssueService.update_issue
      rw [hget]
      simp [hedit, herr]
    rcases applyUpdates_error_spec _ _ _ _ herr with ⟨h1, h2, h3⟩
    refine ⟨by rw [hres], ⟨SvcError.permissionDeniedField f, by rw [hres], rfl⟩,
      ?_, fun _ => ⟨f, by rw [hres]⟩, fun hf => absurd hedit (by simp [hf])⟩
    intro f2 heq
    rw [hres] at heq
    simp only [Prod.fst] at heq
    injection heq with heq
    injection heq with heq
    subst heq
    exact ⟨h1, h2, h3⟩
  · have hres : IssueService.update_issue user issue_id updates now today db =
        (Except.error SvcError.permissionDeniedEdit, db) := by
      unfold IssueService.update_issue
      rw [hget]
      simp [hedit]
    refine ⟨by rw [hres], ⟨SvcError.permissionDeniedEdit, by rw [hres], rfl⟩, ?_,
      fun hc => absurd hc hedit, fun _ => by rw [hres]⟩
    intro f2 heq
    rw [hres] at heq
    simp at heq

/-- A store holding only `issueOpenIT` (fixture for the C1 witness). -/
def dbOpenIT : DB :=
  { issues := [issueOpenIT], audits := [] }

/-- Witness for C1's amended theorem: the sample Restricted user (who
can edit the Open IT issue) sending payload `{title: "X"}`, a field
outside the Restricted editable set. -/
theorem c1_all_or_nothing_witness :
    (IssueService.update_issue restrictedITU 1 [FieldSet.title "X"] 200 50 dbOpenIT).2 =
      dbOpenIT ∧
    (∃ e, (IssueService.update_issue restrictedITU 1 [FieldSet.title "X"]
        200 50 dbOpenIT).1 = Except.error e ∧ e.isPermissionDenied = true) ∧
    (∀ f, (IssueService.update_issue restrictedITU 1 [FieldSet.title "X"]
        200 50 dbOpenIT).1 = Except.error (SvcError.permissionDeniedField f) →
      f ∈ [FieldSet.title "X"].map FieldSet.key ∧
        f ∉ get_editable_fields restrictedITU issueOpenIT ∧ f ∉ IMMUTABLE_KEYS) ∧
    (can_edit_issue restrictedITU issueOpenIT = true →
      ∃ f, (IssueService.update_issue restrictedITU 1 [FieldSet.title "X"]
          200 50 dbOpenIT).1 = Except.error (SvcError.permissionDeniedField f)) ∧
    (can_edit_issue restrictedITU issueOpenIT = false →
      (IssueService.update_issue restrictedITU 1 [FieldSet.title "X"]
          200 50 dbOpenIT).1 = Except.error SvcError.permissionDeniedEdit) :=
  c1_all_or_nothing restrictedITU 1 [FieldSet.title "X"] 200 50 dbOpenIT issueOpenIT
    (by decide) (by decide)

/-- Setting any field other than `closing_date` leaves `closing_date`
unchanged. -/
theorem setField_closing_date (i : Issue) (u : FieldSet)
    (h : u.key ≠ FieldKey.closing_date) :
    (i.setField u).closing_date = i.closing_date := by
  cases u <;> simp_all [Issue.setField, FieldSet.key]

/-- A successful update loop whose payload never mentions `closing_date`
leaves `closing_date` unchanged. -/
theorem applyUpdates_preserves_closing_date (editable : List FieldKey) (i j : Issue)
    (us : List FieldSet) (hk : FieldKey.closing_date ∉ us.map FieldSet.key)
    (h : applyUpdates editable i us = Except.ok j) :
    j.closing_date = i.closing_date := by
  induction us generalizing i with
  | nil =>
    simp [applyUpdates] at h
    subst h
    rfl
  | cons u rest ih =>
    have hk1 : u.key ≠ FieldKey.closing_date := by
      intro he
      exact hk (by simp [he])
    have hk2 : FieldKey.closing_date ∉ rest.map FieldSet.key := by
      intro hm
      exact hk (by simp [hm])
    simp only [applyUpdates] at h
    split at h
    · rw [ih (i.setField u) hk2 h, setField_closing_date i u hk1]
    · split at h
      · exact ih i hk2 h
      · simp at h

/-- C7: every accepted `update_issue` whose payload sets status to
Closed on an issue with no closing date, and which does not itself set
`closing_date`, persists an Issue whose `closing_date` is today. -/
theorem c7_auto_closing_date (user : User) (issue_id : Nat) (updates : List FieldSet)
    (now today : Nat) (db : DB) (original updated : Issue)
    (hget : Queries.get_issue issue_id db = some original)
    (hclos : original.closing_date = none)
    (hstat : payloadStatus updates = some Status.closed)
    (hnok : FieldKey.closing_date ∉ updates.map FieldSet.key)
    (hacc : (IssueService.update_issue user issue_id updates now today db).1 =
        Except.ok updated) :
    updated.closing_date = some today := by
  simp only [IssueService.update_issue, hget, hstat] at hacc
  split at hacc
  · simp at hacc
  · split at hacc
    · simp at hacc
    · next applied happ =>
      split at hacc
      · simp at hacc
      · split at hacc
        · next hcond =>
          simp only [IssueService.finishUpdate, Queries.update_issue] at hacc
          simp at hacc
          subst hacc
          rfl
        · next hcond =>
          have hpres : applied.closing_date = none := by
            rw [applyUpdates_preserves_closing_date _ _ _ _ hnok happ, hclos]
          exact absurd ⟨trivial, hpres⟩ hcond

/-- An In Progress issue with no closing date (fixture for C7). -/
def issueIP : Issue :=
  { title := "C", id := some 1, status := Status.inProgress }

/-- A store holding only `issueIP` (fixture for C7). -/
def dbIP : DB :=
  { issues := [issueIP], audits := [] }

/-- The issue `update_issue` persists in the C7 witness scenario. -/
def updatedIPClosed : Issue :=
  { issueIP with status := Status.closed, closing_date := some 50, updated_at := some 200 }

/-- Witness for C7: the sample Administrator closes the In Progress
issue at `today = 50`; the persisted issue's closing date is 50. -/
theorem c7_auto_closing_date_witness : updatedIPClosed.closing_date = some 50 :=
  c7_auto_closing_date adminU 1 [FieldSet.status Status.closed] 200 50 dbIP issueIP
    updatedIPClosed (by decide) rfl rfl (by decide) (by decide)

/-- A stored issue whose field values equal its own update payload
(fixture for C4): title "T1", last written at instant 100. -/
def issueNoop : Issue :=
  { title := "T1", id := some 1, status := Status.open_, created_at := some 100,
    updated_at := some 100 }

/-- A store holding only `issueNoop`, with an empty audit trail. -/
def dbNoop : DB :=
  { issues := [issueNoop], audits := [] }

/-- What the no-op update persists: only `updated_at` is bumped. -/
def issueNoopUpdated : Issue :=
  { issueNoop with updated_at := some 200 }

/-- The single AuditEvent the no-op update writes: an `updated` entry
whose only recorded change is the automatic `updated_at` bump. -/
def noopAuditEntry : AuditEntry :=
  { user_id := some 1, username := "admin", action := "updated",
    entity_type := "issue", entity_id := some 1,
    details := some (AuditDetails.updated
      [(FieldKey.updated_at, DictVal.n (some 100), DictVal.n (some 200))]) }

/-- C4 (divergence): a no-op update is NOT silent. The Administrator
updates issue 1 with payload `{title: "T1"}` equal to its current value
at clock instant 200 (the stored `updated_at` is 100). The call is
accepted, and exactly one AuditEvent is written: an `updated` event
recording only the `updated_at` bump that `queries.update_issue`
performs on every write — although `audit.py`'s own no-change guard
("No actual changes") and its unit test intend silence. No
`status_changed` event is written. -/
theorem c4_noop_update_emits_audit :
    (IssueService.update_issue adminU 1 [FieldSet.title "T1"] 200 50 dbNoop).1 =
      Except.ok issueNoopUpdated ∧
    (IssueService.update_issue adminU 1 [FieldSet.title "T1"] 200 50 dbNoop).2.audits =
      [noopAuditEntry] := by
  decide

/-- C10: `add_update_note`, for every actor passing `can_edit_issue`,
is accepted and persists the issue with the timestamped,
username-prefixed note appended to its `updates` field — and appends no
AuditEvent whatsoever (the audit trail is exactly as before); the
editable-fields mask is never consulted on this path. -/
theorem c10_add_update_note_unaudited (user : User) (issue_id : Nat)
    (note timestamp : String) (now : Nat) (db : DB) (issue : Issue)
    (hget : Queries.get_issue issue_id db = some issue)
    (hedit : can_edit_issue user issue = true) :
    ∃ updated,
      (IssueService.add_update_note user issue_id note timestamp now db).1 =
        Except.ok updated ∧
      updated.updates = some (appendNote issue.updates
        ("[" ++ timestamp ++ "] " ++ user.username ++ ": " ++ note)) ∧
      (IssueService.add_update_note user issue_id note timestamp now db).2.issues =
        db.issues.map (fun j => if j.id = issue.id then updated else j) ∧
      (IssueService.add_update_note user issue_id note timestamp now db).2.audits =
        db.audits := by
  refine ⟨{ issue with
      updates := some (appendNote issue.updates
        ("[" ++ timestamp ++ "] " ++ user.username ++ ": " ++ note)),
      updated_at := some now }, ?_, rfl, ?_, ?_⟩ <;>
    simp [IssueService.add_update_note, hget, hedit, Queries.update_issue]

/-- Witness for C10: the sample Administrator adds the note "hello" at
timestamp "ts" to the In Progress issue (whose `updates` is `None`). -/
theorem c10_add_update_note_unaudited_witness :
    ∃ updated,
      (IssueService.add_update_note adminU 1 "hello" "ts" 200 dbIP).1 =
        Except.ok updated ∧
      updated.updates = some (appendNote issueIP.updates
        ("[" ++ "ts" ++ "] " ++ adminU.username ++ ": " ++ "hello")) ∧
      (IssueService.add_update_note adminU 1 "hello" "ts" 200 dbIP).2.issues =
        dbIP.issues.map (fun j => if j.id = issueIP.id then updated else j) ∧
      (IssueService.add_update_note adminU 1 "hello" "ts" 200 dbIP).2.audits =
        dbIP.audits :=
  c10_add_update_note_unaudited adminU 1 "hello" "ts" 200 dbIP issueIP
    (by decide) (by decide)

end IssueRegister
